import Mathlib

/-!
Verification of the collecting-website price-acquisition and reconciliation
subsystem, shallowly embedded from the Python sources:

  - app/price_retrieval.py        (price fetch result rows, history writer)
  - daily_price_update.py         (standalone copy of the writer, batch loop)
  - app/pricecharting_service.py  (URL validation, identity extraction)
  - app/wishlist_service.py       (add-to-wishlist reconciliation chain)
  - app/collection_service.py     (add-to-collection reconciliation chain)
  - app/routes.py                 (barcode validation, wishlist purchase route)

Python strings are modelled as Lean String (a wrapper around List Char), Python
float prices as Rat (no arithmetic is performed on them), Python None via
Option, and Python exceptions as a record carrying the exception class name and
message.  SQLite tables are lists of row records; SELECT ... LIMIT 1 /
fetchone is List.find? in rowid order, INSERT appends a row carrying the
table's autoincrement id, UPDATE maps over rows, DELETE filters.
-/

/-- Model of the Python whitespace class used by str.strip (ASCII subset). -/
def isPyWs (c : Char) : Bool :=
  c = ' ' || c = '\t' || c = '\n' || c = '\x0d' || c = '\x0b' || c = '\x0c'

/-- Model of str.lstrip restricted to a character set, on character lists. -/
def lstripChars (set : List Char) (cs : List Char) : List Char :=
  cs.dropWhile (fun c => set.contains c)

/-- Model of str.rstrip restricted to a character set, on character lists. -/
def rstripChars (set : List Char) (cs : List Char) : List Char :=
  (cs.reverse.dropWhile (fun c => set.contains c)).reverse

/-- The Python whitespace characters as a list (ASCII subset). -/
def pyWsChars : List Char := [' ', '\t', '\n', '\x0d', '\x0b', '\x0c']

/-- Model of str.strip with no argument: trim whitespace from both ends. -/
def pyStrip (cs : List Char) : List Char :=
  rstripChars pyWsChars (lstripChars pyWsChars cs)

/-- Model of str.strip on Lean strings. -/
def pyStripS (s : String) : String := ⟨pyStrip s.data⟩

/-- Model of str.rstrip with an explicit character-set argument, on strings. -/
def pyRstripS (set : String) (s : String) : String := ⟨rstripChars set.data s.data⟩

/-!  C1 — the price history writer (insert_price_records).

Embedded from app/price_retrieval.py lines 55..96; daily_price_update.py lines
72..100 contains a line-for-line copy of the same record-building logic, so one
definition covers both sources.  -/

/-- Result of get_game_prices: one fetch attempt.  The prices dict is built
with keys in insertion order complete, new, loose.  A Python float price is
modelled as a Rat; a missing price (the literal dash) is none. -/
structure PriceData where
  pricechartingId : String
  time : String
  complete : Option Rat
  new : Option Rat
  loose : Option Rat
deriving DecidableEq, Repr

/-- One row of the pricecharting_prices table, in column order
(pricecharting_id, retrieve_time, price, condition). -/
structure PriceRecord where
  pricechartingId : String
  retrieveTime : String
  price : Option Rat
  condition : String
deriving DecidableEq, Repr

/-- The condition list of the prices dict of a fetch result, in Python dict
iteration (insertion) order. -/
def priceItems (pd : PriceData) : List (String × Option Rat) :=
  [("complete", pd.complete), ("new", pd.new), ("loose", pd.loose)]

/-- The loop of insert_price_records: build the records list and the
has_prices flag by iterating over the prices dict. -/
def buildPriceRecords (pd : PriceData) : List PriceRecord × Bool :=
  (priceItems pd).foldl
    (fun acc cp =>
      (acc.1 ++ [⟨pd.pricechartingId, pd.time, cp.2, cp.1⟩],
       acc.2 || cp.2.isSome))
    ([], false)

/-- Rows inserted by insert_price_records for one fetch result: the loop rows,
plus one extra null record with condition new when no price was found.  The
function takes the possibly-falsy price_data argument; a falsy (None) argument
inserts nothing and returns false, otherwise the rows are inserted by a single
executemany and the function returns true (storage faults are outside the
model). -/
def insert_price_records (pd : Option PriceData) : List PriceRecord × Bool :=
  match pd with
  | none => ([], false)
  | some pd =>
      let rb := buildPriceRecords pd
      let records :=
        if rb.2 then rb.1
        else rb.1 ++ [⟨pd.pricechartingId, pd.time, none, "new"⟩]
      (records, true)

/-- Rows the writer appends for a non-falsy fetch result. -/
def writerRows (pd : PriceData) : List PriceRecord :=
  (insert_price_records (some pd)).1

/-- C1 counterexample: on a fetch result with all three condition prices null,
the writer appends four rows (the three per-condition null rows built by the
loop, plus the sentinel), not exactly one row as the claim states. -/
theorem C1_counterexample :
    (writerRows ⟨"6910", "2026-10-12T00:00:00+00:00", none, none, none⟩).length = 4 ∧
    ¬ (writerRows ⟨"6910", "2026-10-12T00:00:00+00:00", none, none, none⟩).length = 1 := by
  constructor
  · rfl
  · intro h
    simp [writerRows, insert_price_records, buildPriceRecords, priceItems] at h

/-- C1 amended: for every fetch result the writer appends one row per
condition in dict order, null prices included; when and only when all three
condition prices are null it additionally appends one sentinel row with
condition new and price null, so an all-null fetch yields four rows and any
other fetch yields exactly three. -/
theorem C1_amended (pd : PriceData) :
    writerRows pd =
      [⟨pd.pricechartingId, pd.time, pd.complete, "complete"⟩,
       ⟨pd.pricechartingId, pd.time, pd.new, "new"⟩,
       ⟨pd.pricechartingId, pd.time, pd.loose, "loose"⟩] ++
      (if pd.complete = none ∧ pd.new = none ∧ pd.loose = none
       then [⟨pd.pricechartingId, pd.time, none, "new"⟩] else []) := by
  obtain ⟨pid, t, c, n, l⟩ := pd
  cases c <;> cases n <;> cases l <;>
    simp [writerRows, insert_price_records, buildPriceRecords, priceItems]

/-!  Data model for the reconciliation services (C2, C5, C6) and the wishlist
purchase route (C3).

Embedded from app/wishlist_service.py, app/collection_service.py and
app/routes.py.  Each SQLite table is a list of rows in rowid order together
with a per-table autoincrement counter held in the database state. -/

/-- One row of the pricecharting_games table (the CatalogIdentity entity). -/
structure PCGameRow where
  id : Nat
  pricechartingId : String
  name : String
  console : String
  url : String
deriving DecidableEq, Repr

/-- One row of the physical_games table (the LogicalGame entity). -/
structure PhysicalGameRow where
  id : Nat
  name : String
  console : String
deriving DecidableEq, Repr

/-- One row of the physical_games_pricecharting_games join table (the
CatalogLink entity). -/
structure LinkRow where
  id : Nat
  physicalGame : Nat
  pricechartingGame : Nat
deriving DecidableEq, Repr

/-- One row of the wanted_games table (the WantRecord entity). -/
structure WantedRow where
  id : Nat
  physicalGame : Nat
  condition : String
deriving DecidableEq, Repr

/-- One row of the purchased_games table (the OwnershipRecord entity). -/
structure PurchasedRow where
  id : Nat
  physicalGame : Nat
  condition : String
  acquisitionDate : String
  source : Option String
  price : Option Rat
deriving DecidableEq, Repr

/-- The database state: the five tables touched by the reconciliation
services, each with its autoincrement counter. -/
structure DbState where
  pricechartingGames : List PCGameRow
  physicalGames : List PhysicalGameRow
  links : List LinkRow
  wantedGames : List WantedRow
  purchasedGames : List PurchasedRow
  nextPcId : Nat
  nextPhysId : Nat
  nextLinkId : Nat
  nextWantedId : Nat
  nextPurchasedId : Nat
deriving DecidableEq, Repr

/-- The empty database with fresh autoincrement counters. -/
def emptyDb : DbState := ⟨[], [], [], [], [], 1, 1, 1, 1, 1⟩

/-- The extraction result dict handed to both services: keys name, console,
pricecharting_id, url. -/
structure GameData where
  name : String
  console : String
  pricechartingId : String
  url : String
deriving DecidableEq, Repr

/-- The required-field validation loop shared verbatim by both services: a
falsy (empty) field is replaced by the placeholder Unknown-field string, or by
the fixed sentinel 999999 for pricecharting_id. -/
def validateGameData (gd : GameData) : GameData :=
  { name := if gd.name = "" then "Unknown name" else gd.name
    console := if gd.console = "" then "Unknown console" else gd.console
    pricechartingId :=
      if gd.pricechartingId = "" then "999999" else gd.pricechartingId
    url := if gd.url = "" then "Unknown url" else gd.url }

/-- Step one of the upsert chain: SELECT id FROM pricecharting_games WHERE
pricecharting_id = ?, INSERT on absence; returns the row id used. -/
def lookupOrInsertPcGame (s : DbState) (gd : GameData) : DbState × Nat :=
  match s.pricechartingGames.find? (fun r => r.pricechartingId == gd.pricechartingId) with
  | some r => (s, r.id)
  | none =>
      let rid := s.nextPcId
      ({ s with
          pricechartingGames :=
            s.pricechartingGames ++ [⟨rid, gd.pricechartingId, gd.name, gd.console, gd.url⟩]
          nextPcId := rid + 1 }, rid)

/-- Step two of the upsert chain: SELECT id FROM physical_games WHERE
name = ? AND console = ?, INSERT on absence; returns the row id used. -/
def lookupOrInsertPhysical (s : DbState) (gd : GameData) : DbState × Nat :=
  match s.physicalGames.find? (fun r => r.name == gd.name && r.console == gd.console) with
  | some r => (s, r.id)
  | none =>
      let rid := s.nextPhysId
      ({ s with
          physicalGames := s.physicalGames ++ [⟨rid, gd.name, gd.console⟩]
          nextPhysId := rid + 1 }, rid)

/-- Step three of the upsert chain: SELECT id FROM the join table WHERE
physical_game = ? AND pricecharting_game = ?, INSERT on absence, silent no-op
otherwise. -/
def ensureLink (s : DbState) (physId pcId : Nat) : DbState :=
  match s.links.find? (fun l => l.physicalGame == physId && l.pricechartingGame == pcId) with
  | some _ => s
  | none =>
      { s with
          links := s.links ++ [⟨s.nextLinkId, physId, pcId⟩]
          nextLinkId := s.nextLinkId + 1 }

/-- The wanted_games upsert of add_game_to_wishlist: UPDATE the condition of
an existing row for the physical game, INSERT otherwise. -/
def upsertWanted (s : DbState) (physId : Nat) (condition : String) : DbState :=
  match s.wantedGames.find? (fun w => w.physicalGame == physId) with
  | some w =>
      { s with
          wantedGames :=
            s.wantedGames.map (fun r => if r.id == w.id then { r with condition } else r) }
  | none =>
      { s with
          wantedGames := s.wantedGames ++ [⟨s.nextWantedId, physId, condition⟩]
          nextWantedId := s.nextWantedId + 1 }

/-- The purchased_games upsert of add_game_to_collection: UPDATE condition,
acquisition date, source and price of the first existing row for the physical
game, INSERT otherwise; returns the purchased row id used. -/
def upsertPurchased (s : DbState) (physId : Nat) (condition : String)
    (purchaseDate : String) (purchaseSource : Option String)
    (purchasePrice : Option Rat) : DbState × Nat :=
  match s.purchasedGames.find? (fun p => p.physicalGame == physId) with
  | some p =>
      ({ s with
          purchasedGames :=
            s.purchasedGames.map (fun r =>
              if r.id == p.id then
                { r with condition, acquisitionDate := purchaseDate,
                         source := purchaseSource, price := purchasePrice }
              else r) }, p.id)
  | none =>
      let rid := s.nextPurchasedId
      ({ s with
          purchasedGames :=
            s.purchasedGames ++ [⟨rid, physId, condition, purchaseDate, purchaseSource, purchasePrice⟩]
          nextPurchasedId := rid + 1 }, rid)

/-- The database transaction of WishlistService.add_game_to_wishlist, applied
to already-extracted game data: catalog identity upsert, logical game upsert,
link upsert, wishlist upsert, in source order, committed as a whole. -/
def add_game_to_wishlist_db (s : DbState) (gd0 : GameData) (condition : String) :
    DbState × Nat :=
  let gd := validateGameData gd0
  let p1 := lookupOrInsertPcGame s gd
  let p2 := lookupOrInsertPhysical p1.1 gd
  let s3 := ensureLink p2.1 p2.2 p1.2
  let s4 := upsertWanted s3 p2.2 condition
  (s4, p2.2)

/-- The database transaction of CollectionService.add_game_to_collection,
applied to already-extracted game data: catalog identity upsert, logical game
upsert, purchased upsert, then link upsert, in source order. -/
def add_game_to_collection_db (s : DbState) (gd0 : GameData) (purchaseDate : String)
    (purchaseSource : Option String) (purchasePrice : Option Rat)
    (condition : String) : DbState × Nat :=
  let gd := validateGameData gd0
  let p1 := lookupOrInsertPcGame s gd
  let p2 := lookupOrInsertPhysical p1.1 gd
  let p3 := upsertPurchased p2.1 p2.2 condition purchaseDate purchaseSource purchasePrice
  let s4 := ensureLink p3.1 p2.2 p1.2
  (s4, p3.2)

/-- Model of a Python exception value: the exception class and its message.
Both services and the extractor raise ValueError on their failure paths. -/
structure PyExn where
  etype : String
  message : String
deriving DecidableEq, Repr

/-- WishlistService.add_game_to_wishlist downstream of the extraction call: a
failed extraction is re-raised as ValueError and nothing is written; a
successful extraction (placeholder-substituted fields included) always
proceeds to the database transaction. -/
def add_game_to_wishlist_from_extraction (s : DbState)
    (ext : Except PyExn GameData) (condition : String) :
    Except PyExn (DbState × Nat) :=
  match ext with
  | .error e => .error ⟨"ValueError", "Failed to extract game data: " ++ e.message⟩
  | .ok gd => .ok (add_game_to_wishlist_db s gd condition)

/-- CollectionService.add_game_to_collection downstream of the extraction
call, mirroring add_game_to_wishlist_from_extraction. -/
def add_game_to_collection_from_extraction (s : DbState)
    (ext : Except PyExn GameData) (purchaseDate : String)
    (purchaseSource : Option String) (purchasePrice : Option Rat)
    (condition : String) : Except PyExn (DbState × Nat) :=
  match ext with
  | .error e => .error ⟨"ValueError", "Failed to extract game data: " ++ e.message⟩
  | .ok gd => .ok (add_game_to_collection_db s gd purchaseDate purchaseSource purchasePrice condition)

/-!  Helper lemmas about the upsert-chain steps. -/

theorem lookupOrInsertPcGame_found {s : DbState} {gd : GameData} {r : PCGameRow}
    (h : s.pricechartingGames.find?
        (fun x => x.pricechartingId == gd.pricechartingId) = some r) :
    lookupOrInsertPcGame s gd = (s, r.id) := by
  simp [lookupOrInsertPcGame, h]

theorem lookupOrInsertPcGame_preserves (s : DbState) (gd : GameData) :
    ((lookupOrInsertPcGame s gd).1).physicalGames = s.physicalGames ∧
    ((lookupOrInsertPcGame s gd).1).links = s.links ∧
    ((lookupOrInsertPcGame s gd).1).wantedGames = s.wantedGames ∧
    ((lookupOrInsertPcGame s gd).1).purchasedGames = s.purchasedGames := by
  cases h : s.pricechartingGames.find? (fun x => x.pricechartingId == gd.pricechartingId) <;>
    simp [lookupOrInsertPcGame, h]

theorem lookupOrInsertPcGame_find_after (s : DbState) (gd : GameData) :
    ∃ r, ((lookupOrInsertPcGame s gd).1).pricechartingGames.find?
        (fun x => x.pricechartingId == gd.pricechartingId) = some r ∧
      r.id = (lookupOrInsertPcGame s gd).2 := by
  cases h : s.pricechartingGames.find? (fun x => x.pricechartingId == gd.pricechartingId) with
  | some r => exact ⟨r, by simp [lookupOrInsertPcGame, h]⟩
  | none =>
      exact ⟨⟨s.nextPcId, gd.pricechartingId, gd.name, gd.console, gd.url⟩,
        by simp [lookupOrInsertPcGame, h]⟩

theorem lookupOrInsertPhysical_found {s : DbState} {gd : GameData} {r : PhysicalGameRow}
    (h : s.physicalGames.find?
        (fun x => x.name == gd.name && x.console == gd.console) = some r) :
    lookupOrInsertPhysical s gd = (s, r.id) := by
  simp [lookupOrInsertPhysical, h]

theorem lookupOrInsertPhysical_preserves (s : DbState) (gd : GameData) :
    ((lookupOrInsertPhysical s gd).1).pricechartingGames = s.pricechartingGames ∧
    ((lookupOrInsertPhysical s gd).1).links = s.links ∧
    ((lookupOrInsertPhysical s gd).1).wantedGames = s.wantedGames ∧
    ((lookupOrInsertPhysical s gd).1).purchasedGames = s.purchasedGames := by
  cases h : s.physicalGames.find? (fun x => x.name == gd.name && x.console == gd.console) <;>
    simp [lookupOrInsertPhysical, h]

theorem lookupOrInsertPhysical_find_after (s : DbState) (gd : GameData) :
    ∃ r, ((lookupOrInsertPhysical s gd).1).physicalGames.find?
        (fun x => x.name == gd.name && x.console == gd.console) = some r ∧
      r.id = (lookupOrInsertPhysical s gd).2 := by
  cases h : s.physicalGames.find? (fun x => x.name == gd.name && x.console == gd.console) with
  | some r => exact ⟨r, by simp [lookupOrInsertPhysical, h]⟩
  | none =>
      exact ⟨⟨s.nextPhysId, gd.name, gd.console⟩, by simp [lookupOrInsertPhysical, h]⟩

theorem ensureLink_preserves (s : DbState) (physId pcId : Nat) :
    (ensureLink s physId pcId).pricechartingGames = s.pricechartingGames ∧
    (ensureLink s physId pcId).physicalGames = s.physicalGames ∧
    (ensureLink s physId pcId).wantedGames = s.wantedGames ∧
    (ensureLink s physId pcId).purchasedGames = s.purchasedGames := by
  cases h : s.links.find? (fun l => l.physicalGame == physId && l.pricechartingGame == pcId) <;>
    simp [ensureLink, h]

theorem ensureLink_of_found {s : DbState} {physId pcId : Nat}
    (h : (s.links.find?
        (fun l => l.physicalGame == physId && l.pricechartingGame == pcId)).isSome) :
    ensureLink s physId pcId = s := by
  obtain ⟨l, hl⟩ := Option.isSome_iff_exists.mp h
  simp [ensureLink, hl]

theorem ensureLink_find_after (s : DbState) (physId pcId : Nat) :
    ((ensureLink s physId pcId).links.find?
        (fun l => l.physicalGame == physId && l.pricechartingGame == pcId)).isSome := by
  cases h : s.links.find? (fun l => l.physicalGame == physId && l.pricechartingGame == pcId) with
  | some l => simp [ensureLink, h]
  | none => simp [ensureLink, h]

theorem upsertWanted_preserves (s : DbState) (physId : Nat) (condition : String) :
    (upsertWanted s physId condition).pricechartingGames = s.pricechartingGames ∧
    (upsertWanted s physId condition).physicalGames = s.physicalGames ∧
    (upsertWanted s physId condition).links = s.links ∧
    (upsertWanted s physId condition).purchasedGames = s.purchasedGames := by
  cases h : s.wantedGames.find? (fun w => w.physicalGame == physId) <;>
    simp [upsertWanted, h]

theorem upsertPurchased_preserves (s : DbState) (physId : Nat) (c d : String)
    (src : Option String) (pr : Option Rat) :
    ((upsertPurchased s physId c d src pr).1).pricechartingGames = s.pricechartingGames ∧
    ((upsertPurchased s physId c d src pr).1).physicalGames = s.physicalGames ∧
    ((upsertPurchased s physId c d src pr).1).links = s.links ∧
    ((upsertPurchased s physId c d src pr).1).wantedGames = s.wantedGames := by
  cases h : s.purchasedGames.find? (fun p => p.physicalGame == physId) <;>
    simp [upsertPurchased, h]

theorem upsertPurchased_found {s : DbState} {physId : Nat} {p : PurchasedRow}
    (c d : String) (src : Option String) (pr : Option Rat)
    (h : s.purchasedGames.find? (fun x => x.physicalGame == physId) = some p) :
    upsertPurchased s physId c d src pr =
      ({ s with
          purchasedGames :=
            s.purchasedGames.map (fun r =>
              if r.id == p.id then
                { r with condition := c, acquisitionDate := d,
                         source := src, price := pr }
              else r) }, p.id) := by
  simp [upsertPurchased, h]

/-- Unfolding equation for the wishlist transaction (first component). -/
theorem add_wishlist_db_fst (s : DbState) (gd : GameData) (c : String) :
    (add_game_to_wishlist_db s gd c).1 =
      upsertWanted
        (ensureLink
          (lookupOrInsertPhysical (lookupOrInsertPcGame s (validateGameData gd)).1
            (validateGameData gd)).1
          (lookupOrInsertPhysical (lookupOrInsertPcGame s (validateGameData gd)).1
            (validateGameData gd)).2
          (lookupOrInsertPcGame s (validateGameData gd)).2)
        (lookupOrInsertPhysical (lookupOrInsertPcGame s (validateGameData gd)).1
          (validateGameData gd)).2 c := rfl

/-- Unfolding equation for the wishlist transaction (second component). -/
theorem add_wishlist_db_snd (s : DbState) (gd : GameData) (c : String) :
    (add_game_to_wishlist_db s gd c).2 =
      (lookupOrInsertPhysical (lookupOrInsertPcGame s (validateGameData gd)).1
        (validateGameData gd)).2 := rfl

/-- After one wishlist add, the three reconciliation lookups all succeed on
the resulting state, with the matched rows carrying the ids the call used. -/
theorem add_wishlist_db_after (s : DbState) (gd : GameData) (c : String) :
    ∃ rp rg,
      ((add_game_to_wishlist_db s gd c).1).pricechartingGames.find?
          (fun x => x.pricechartingId == (validateGameData gd).pricechartingId) = some rp ∧
      ((add_game_to_wishlist_db s gd c).1).physicalGames.find?
          (fun x => x.name == (validateGameData gd).name &&
                    x.console == (validateGameData gd).console) = some rg ∧
      (((add_game_to_wishlist_db s gd c).1).links.find?
          (fun l => l.physicalGame == rg.id && l.pricechartingGame == rp.id)).isSome ∧
      rg.id = (add_game_to_wishlist_db s gd c).2 := by
  obtain ⟨rp, hrp, hrpid⟩ := lookupOrInsertPcGame_find_after s (validateGameData gd)
  obtain ⟨rg, hrg, hrgid⟩ :=
    lookupOrInsertPhysical_find_after (lookupOrInsertPcGame s (validateGameData gd)).1
      (validateGameData gd)
  refine ⟨rp, rg, ?_, ?_, ?_, ?_⟩
  · rw [add_wishlist_db_fst, (upsertWanted_preserves _ _ _).1,
        (ensureLink_preserves _ _ _).1, (lookupOrInsertPhysical_preserves _ _).1]
    exact hrp
  · rw [add_wishlist_db_fst, (upsertWanted_preserves _ _ _).2.1,
        (ensureLink_preserves _ _ _).2.1]
    exact hrg
  · rw [add_wishlist_db_fst, (upsertWanted_preserves _ _ _).2.2.1, hrgid, hrpid]
    exact ensureLink_find_after _ _ _
  · rw [add_wishlist_db_snd]
    exact hrgid

/-- A wishlist add on a state where all three reconciliation lookups already
succeed reduces to the wanted_games upsert alone. -/
theorem add_wishlist_db_second (s1 : DbState) (gd : GameData) (c : String)
    (rp : PCGameRow) (rg : PhysicalGameRow)
    (hpc : s1.pricechartingGames.find?
        (fun x => x.pricechartingId == (validateGameData gd).pricechartingId) = some rp)
    (hph : s1.physicalGames.find?
        (fun x => x.name == (validateGameData gd).name &&
                  x.console == (validateGameData gd).console) = some rg)
    (hlk : (s1.links.find?
        (fun l => l.physicalGame == rg.id && l.pricechartingGame == rp.id)).isSome) :
    add_game_to_wishlist_db s1 gd c = (upsertWanted s1 rg.id c, rg.id) := by
  have h1 : lookupOrInsertPcGame s1 (validateGameData gd) = (s1, rp.id) :=
    lookupOrInsertPcGame_found hpc
  have h2 : lookupOrInsertPhysical s1 (validateGameData gd) = (s1, rg.id) :=
    lookupOrInsertPhysical_found hph
  show (upsertWanted _ _ _, _) = _
  rw [h1, h2]
  simp only []
  rw [ensureLink_of_found hlk]

/-- Unfolding equation for the collection transaction (first component). -/
theorem add_collection_db_fst (s : DbState) (gd : GameData) (d : String)
    (src : Option String) (pr : Option Rat) (c : String) :
    (add_game_to_collection_db s gd d src pr c).1 =
      ensureLink
        (upsertPurchased
          (lookupOrInsertPhysical (lookupOrInsertPcGame s (validateGameData gd)).1
            (validateGameData gd)).1
          (lookupOrInsertPhysical (lookupOrInsertPcGame s (validateGameData gd)).1
            (validateGameData gd)).2 c d src pr).1
        (lookupOrInsertPhysical (lookupOrInsertPcGame s (validateGameData gd)).1
          (validateGameData gd)).2
        (lookupOrInsertPcGame s (validateGameData gd)).2 := rfl

/-- After one collection add, the three reconciliation lookups all succeed on
the resulting state, with the matched rows carrying the ids the call used. -/
theorem add_collection_db_after (s : DbState) (gd : GameData) (d : String)
    (src : Option String) (pr : Option Rat) (c : String) :
    ∃ rp rg,
      ((add_game_to_collection_db s gd d src pr c).1).pricechartingGames.find?
          (fun x => x.pricechartingId == (validateGameData gd).pricechartingId) = some rp ∧
      ((add_game_to_collection_db s gd d src pr c).1).physicalGames.find?
          (fun x => x.name == (validateGameData gd).name &&
                    x.console == (validateGameData gd).console) = some rg ∧
      (((add_game_to_collection_db s gd d src pr c).1).links.find?
          (fun l => l.physicalGame == rg.id && l.pricechartingGame == rp.id)).isSome := by
  obtain ⟨rp, hrp, hrpid⟩ := lookupOrInsertPcGame_find_after s (validateGameData gd)
  obtain ⟨rg, hrg, hrgid⟩ :=
    lookupOrInsertPhysical_find_after (lookupOrInsertPcGame s (validateGameData gd)).1
      (validateGameData gd)
  refine ⟨rp, rg, ?_, ?_, ?_⟩
  · rw [add_collection_db_fst, (ensureLink_preserves _ _ _).1,
        (upsertPurchased_preserves _ _ _ _ _ _).1, (lookupOrInsertPhysical_preserves _ _).1]
    exact hrp
  · rw [add_collection_db_fst, (ensureLink_preserves _ _ _).2.1,
        (upsertPurchased_preserves _ _ _ _ _ _).2.1]
    exact hrg
  · rw [add_collection_db_fst, hrgid, hrpid]
    exact ensureLink_find_after _ _ _

/-- A collection add on a state where all three reconciliation lookups already
succeed reduces to the purchased_games upsert alone. -/
theorem add_collection_db_second (s1 : DbState) (gd : GameData) (d : String)
    (src : Option String) (pr : Option Rat) (c : String)
    (rp : PCGameRow) (rg : PhysicalGameRow)
    (hpc : s1.pricechartingGames.find?
        (fun x => x.pricechartingId == (validateGameData gd).pricechartingId) = some rp)
    (hph : s1.physicalGames.find?
        (fun x => x.name == (validateGameData gd).name &&
                  x.console == (validateGameData gd).console) = some rg)
    (hlk : (s1.links.find?
        (fun l => l.physicalGame == rg.id && l.pricechartingGame == rp.id)).isSome) :
    add_game_to_collection_db s1 gd d src pr c =
      ((upsertPurchased s1 rg.id c d src pr).1, (upsertPurchased s1 rg.id c d src pr).2) := by
  have h1 : lookupOrInsertPcGame s1 (validateGameData gd) = (s1, rp.id) :=
    lookupOrInsertPcGame_found hpc
  have h2 : lookupOrInsertPhysical s1 (validateGameData gd) = (s1, rg.id) :=
    lookupOrInsertPhysical_found hph
  show (ensureLink _ _ _, _) = _
  rw [h1, h2]
  simp only []
  rw [ensureLink_of_found]
  rw [(upsertPurchased_preserves _ _ _ _ _ _).2.2.1]
  exact hlk

/-- C2: reconciliation is idempotent for both services.  A second call with an
identical identity record leaves the pricecharting_games, physical_games and
join tables exactly as the first call left them (it inserts none of the
three); and starting from the empty database, two identical calls leave
exactly one catalog identity row for the record's catalog id, exactly one
logical game row for its name and platform, and exactly one link row
associating their ids. -/
theorem C2_reconcile_idempotent :
    (∀ (s : DbState) (gd : GameData) (c : String),
      ((add_game_to_wishlist_db (add_game_to_wishlist_db s gd c).1 gd c).1).pricechartingGames
          = ((add_game_to_wishlist_db s gd c).1).pricechartingGames ∧
      ((add_game_to_wishlist_db (add_game_to_wishlist_db s gd c).1 gd c).1).physicalGames
          = ((add_game_to_wishlist_db s gd c).1).physicalGames ∧
      ((add_game_to_wishlist_db (add_game_to_wishlist_db s gd c).1 gd c).1).links
          = ((add_game_to_wishlist_db s gd c).1).links) ∧
    (∀ (s : DbState) (gd : GameData) (d : String) (src : Option String)
        (pr : Option Rat) (c : String),
      ((add_game_to_collection_db (add_game_to_collection_db s gd d src pr c).1 gd d src pr c).1).pricechartingGames
          = ((add_game_to_collection_db s gd d src pr c).1).pricechartingGames ∧
      ((add_game_to_collection_db (add_game_to_collection_db s gd d src pr c).1 gd d src pr c).1).physicalGames
          = ((add_game_to_collection_db s gd d src pr c).1).physicalGames ∧
      ((add_game_to_collection_db (add_game_to_collection_db s gd d src pr c).1 gd d src pr c).1).links
          = ((add_game_to_collection_db s gd d src pr c).1).links) ∧
    (∀ (gd : GameData) (c : String),
      ∃ r g l,
        ((add_game_to_wishlist_db (add_game_to_wishlist_db emptyDb gd c).1 gd c).1).pricechartingGames
            = [r] ∧
        r.pricechartingId = (validateGameData gd).pricechartingId ∧
        ((add_game_to_wishlist_db (add_game_to_wishlist_db emptyDb gd c).1 gd c).1).physicalGames
            = [g] ∧
        g.name = (validateGameData gd).name ∧ g.console = (validateGameData gd).console ∧
        ((add_game_to_wishlist_db (add_game_to_wishlist_db emptyDb gd c).1 gd c).1).links
            = [l] ∧
        l.physicalGame = g.id ∧ l.pricechartingGame = r.id) ∧
    (∀ (gd : GameData) (d : String) (src : Option String) (pr : Option Rat) (c : String),
      ∃ r g l,
        ((add_game_to_collection_db (add_game_to_collection_db emptyDb gd d src pr c).1 gd d src pr c).1).pricechartingGames
            = [r] ∧
        r.pricechartingId = (validateGameData gd).pricechartingId ∧
        ((add_game_to_collection_db (add_game_to_collection_db emptyDb gd d src pr c).1 gd d src pr c).1).physicalGames
            = [g] ∧
        g.name = (validateGameData gd).name ∧ g.console = (validateGameData gd).console ∧
        ((add_game_to_collection_db (add_game_to_collection_db emptyDb gd d src pr c).1 gd d src pr c).1).links
            = [l] ∧
        l.physicalGame = g.id ∧ l.pricechartingGame = r.id) := by
  refine ⟨?_, ?_, ?_, ?_⟩
  · intro s gd c
    obtain ⟨rp, rg, h1, h2, h3, _⟩ := add_wishlist_db_after s gd c
    rw [add_wishlist_db_second _ gd c rp rg h1 h2 h3]
    exact ⟨(upsertWanted_preserves _ _ _).1, (upsertWanted_preserves _ _ _).2.1,
           (upsertWanted_preserves _ _ _).2.2.1⟩
  · intro s gd d src pr c
    obtain ⟨rp, rg, h1, h2, h3⟩ := add_collection_db_after s gd d src pr c
    rw [add_collection_db_second _ gd d src pr c rp rg h1 h2 h3]
    exact ⟨(upsertPurchased_preserves _ _ _ _ _ _).1,
           (upsertPurchased_preserves _ _ _ _ _ _).2.1,
           (upsertPurchased_preserves _ _ _ _ _ _).2.2.1⟩
  · intro gd c
    refine ⟨⟨1, (validateGameData gd).pricechartingId, (validateGameData gd).name,
              (validateGameData gd).console, (validateGameData gd).url⟩,
            ⟨1, (validateGameData gd).name, (validateGameData gd).console⟩,
            ⟨1, 1, 1⟩, ?_, rfl, ?_, rfl, rfl, ?_, rfl, rfl⟩ <;>
      simp [add_game_to_wishlist_db, lookupOrInsertPcGame, lookupOrInsertPhysical,
            ensureLink, upsertWanted, emptyDb, List.find?]
  · intro gd d src pr c
    refine ⟨⟨1, (validateGameData gd).pricechartingId, (validateGameData gd).name,
              (validateGameData gd).console, (validateGameData gd).url⟩,
            ⟨1, (validateGameData gd).name, (validateGameData gd).console⟩,
            ⟨1, 1, 1⟩, ?_, rfl, ?_, rfl, rfl, ?_, rfl, rfl⟩ <;>
      simp [add_game_to_collection_db, lookupOrInsertPcGame, lookupOrInsertPhysical,
            ensureLink, upsertPurchased, emptyDb, List.find?]

/-- C5: an extraction result with an empty name, platform or catalog id is not
rejected: the validation loop substitutes the labeled Unknown-field
placeholder (or the fixed 999999 sentinel for the catalog id), both services
proceed to the database transaction and return success, and a row carrying
the substituted identity is present afterwards. -/
theorem C5_missing_field_placeholders :
    (∀ gd : GameData,
      (gd.name = "" → (validateGameData gd).name = "Unknown name") ∧
      (gd.console = "" → (validateGameData gd).console = "Unknown console") ∧
      (gd.pricechartingId = "" → (validateGameData gd).pricechartingId = "999999")) ∧
    (∀ (s : DbState) (gd : GameData) (c : String),
      add_game_to_wishlist_from_extraction s (.ok gd) c =
        .ok (add_game_to_wishlist_db s gd c) ∧
      (∃ r ∈ ((add_game_to_wishlist_db s gd c).1).pricechartingGames,
        r.pricechartingId = (validateGameData gd).pricechartingId) ∧
      (∃ g ∈ ((add_game_to_wishlist_db s gd c).1).physicalGames,
        g.name = (validateGameData gd).name ∧ g.console = (validateGameData gd).console)) ∧
    (∀ (s : DbState) (gd : GameData) (d : String) (src : Option String)
        (pr : Option Rat) (c : String),
      add_game_to_collection_from_extraction s (.ok gd) d src pr c =
        .ok (add_game_to_collection_db s gd d src pr c) ∧
      (∃ r ∈ ((add_game_to_collection_db s gd d src pr c).1).pricechartingGames,
        r.pricechartingId = (validateGameData gd).pricechartingId) ∧
      (∃ g ∈ ((add_game_to_collection_db s gd d src pr c).1).physicalGames,
        g.name = (validateGameData gd).name ∧ g.console = (validateGameData gd).console)) := by
  refine ⟨?_, ?_, ?_⟩
  · intro gd
    refine ⟨fun h => ?_, fun h => ?_, fun h => ?_⟩ <;> simp [validateGameData, h]
  · intro s gd c
    obtain ⟨rp, rg, h1, h2, _, _⟩ := add_wishlist_db_after s gd c
    refine ⟨rfl, ⟨rp, List.mem_of_find?_eq_some h1, ?_⟩,
            ⟨rg, List.mem_of_find?_eq_some h2, ?_⟩⟩
    · simpa using List.find?_some h1
    · simpa using List.find?_some h2
  · intro s gd d src pr c
    obtain ⟨rp, rg, h1, h2, _⟩ := add_collection_db_after s gd d src pr c
    refine ⟨rfl, ⟨rp, List.mem_of_find?_eq_some h1, ?_⟩,
            ⟨rg, List.mem_of_find?_eq_some h2, ?_⟩⟩
    · simpa using List.find?_some h1
    · simpa using List.find?_some h2

/-- C5 witness: a record with all fields empty is accepted by both services at
an explicit input; both run to success with the placeholder identity
persisted. -/
theorem C5_missing_field_placeholders_witness :
    (validateGameData ⟨"", "", "", ""⟩).name = "Unknown name" ∧
    (validateGameData ⟨"", "", "", ""⟩).console = "Unknown console" ∧
    (validateGameData ⟨"", "", "", ""⟩).pricechartingId = "999999" ∧
    add_game_to_wishlist_from_extraction emptyDb (.ok ⟨"", "", "", ""⟩) "complete" =
      .ok (add_game_to_wishlist_db emptyDb ⟨"", "", "", ""⟩ "complete") ∧
    (∃ r ∈ ((add_game_to_wishlist_db emptyDb ⟨"", "", "", ""⟩ "complete").1).pricechartingGames,
      r.pricechartingId = (validateGameData ⟨"", "", "", ""⟩).pricechartingId) := by
  refine ⟨(C5_missing_field_placeholders.1 ⟨"", "", "", ""⟩).1 rfl,
          (C5_missing_field_placeholders.1 ⟨"", "", "", ""⟩).2.1 rfl,
          (C5_missing_field_placeholders.1 ⟨"", "", "", ""⟩).2.2 rfl,
          (C5_missing_field_placeholders.2.1 emptyDb ⟨"", "", "", ""⟩ "complete").1,
          (C5_missing_field_placeholders.2.1 emptyDb ⟨"", "", "", ""⟩ "complete").2.1⟩

/-- C6: when the extracted name and console match an existing logical game
that already has an ownership row, add_game_to_collection inserts no new
purchased row: it rewrites the found row's condition, acquisition date, source
and price in place, leaving the table length and the number of ownership rows
for that logical game unchanged. -/
theorem C6_collection_overwrites_ownership (s : DbState) (gd : GameData)
    (d : String) (src : Option String) (pr : Option Rat) (c : String)
    (rg : PhysicalGameRow) (po : PurchasedRow)
    (hph : s.physicalGames.find?
        (fun x => x.name == (validateGameData gd).name &&
                  x.console == (validateGameData gd).console) = some rg)
    (hpo : s.purchasedGames.find? (fun p => p.physicalGame == rg.id) = some po) :
    ((add_game_to_collection_db s gd d src pr c).1).purchasedGames =
      s.purchasedGames.map (fun r =>
        if r.id == po.id then
          { r with condition := c, acquisitionDate := d, source := src, price := pr }
        else r) ∧
    ((add_game_to_collection_db s gd d src pr c).1).purchasedGames.length =
      s.purchasedGames.length ∧
    ((add_game_to_collection_db s gd d src pr c).1).purchasedGames.countP
        (fun p => p.physicalGame == rg.id) =
      s.purchasedGames.countP (fun p => p.physicalGame == rg.id) := by
  have hph1 : ((lookupOrInsertPcGame s (validateGameData gd)).1).physicalGames.find?
      (fun x => x.name == (validateGameData gd).name &&
                x.console == (validateGameData gd).console) = some rg := by
    rw [(lookupOrInsertPcGame_preserves _ _).1]; exact hph
  have hpo1 : ((lookupOrInsertPcGame s (validateGameData gd)).1).purchasedGames.find?
      (fun p => p.physicalGame == rg.id) = some po := by
    rw [(lookupOrInsertPcGame_preserves _ _).2.2.2]; exact hpo
  have h2 : lookupOrInsertPhysical (lookupOrInsertPcGame s (validateGameData gd)).1
      (validateGameData gd) = ((lookupOrInsertPcGame s (validateGameData gd)).1, rg.id) :=
    lookupOrInsertPhysical_found hph1
  have key : ((add_game_to_collection_db s gd d src pr c).1).purchasedGames =
      s.purchasedGames.map (fun r =>
        if r.id == po.id then
          { r with condition := c, acquisitionDate := d, source := src, price := pr }
        else r) := by
    rw [add_collection_db_fst, (ensureLink_preserves _ _ _).2.2.2]
    simp only [h2]
    simp only [upsertPurchased_found c d src pr hpo1]
    rw [(lookupOrInsertPcGame_preserves _ _).2.2.2]
  refine ⟨key, ?_, ?_⟩
  · rw [key, List.length_map]
  · rw [key, List.countP_map]
    refine List.countP_congr ?_
    intro a _
    by_cases h : (a.id == po.id) = true <;> simp [h, Function.comp]

/-- C6 witness: at a concrete state holding one logical game with one
ownership row, re-adding the same game leaves the ownership table the same
length with the row overwritten. -/
theorem C6_collection_overwrites_ownership_witness :
    ((add_game_to_collection_db
        ⟨[], [⟨1, "Mario Kart 64", "Nintendo 64"⟩], [], [],
         [⟨1, 1, "loose", "2020-01-01", none, none⟩], 1, 2, 1, 1, 2⟩
        ⟨"Mario Kart 64", "Nintendo 64", "6910", "u"⟩ "2026-10-12" none none
        "complete").1).purchasedGames =
      [⟨1, 1, "loose", "2020-01-01", none, none⟩].map (fun r =>
        if r.id == (1 : Nat) then
          { r with condition := "complete", acquisitionDate := "2026-10-12",
                   source := none, price := none }
        else r) ∧
    ((add_game_to_collection_db
        ⟨[], [⟨1, "Mario Kart 64", "Nintendo 64"⟩], [], [],
         [⟨1, 1, "loose", "2020-01-01", none, none⟩], 1, 2, 1, 1, 2⟩
        ⟨"Mario Kart 64", "Nintendo 64", "6910", "u"⟩ "2026-10-12" none none
        "complete").1).purchasedGames.length =
      [(⟨1, 1, "loose", "2020-01-01", none, none⟩ : PurchasedRow)].length := by
  have h := C6_collection_overwrites_ownership
    ⟨[], [⟨1, "Mario Kart 64", "Nintendo 64"⟩], [], [],
     [⟨1, 1, "loose", "2020-01-01", none, none⟩], 1, 2, 1, 1, 2⟩
    ⟨"Mario Kart 64", "Nintendo 64", "6910", "u"⟩ "2026-10-12" none none "complete"
    ⟨1, "Mario Kart 64", "Nintendo 64"⟩ ⟨1, 1, "loose", "2020-01-01", none, none⟩
    (by decide) (by decide)
  exact ⟨h.1, h.2.1⟩

/-!  C3 — the wishlist purchase route (app/routes.py purchase_wishlist_game).

The route runs one SQLite transaction: SELECT the physical game and its want
condition, INSERT the purchased row, DELETE the want rows, then a single
commit; closing the connection without reaching the commit rolls the pending
writes back.  The transaction is modelled as a trace of events over a pair of
durable and pending states: writes touch only the pending state and the
commit publishes it, so interrupting after any prefix of the trace leaves the
durable state of that prefix. -/

/-- One DML statement issued by the purchase route. -/
inductive SqlStep where
  | insertPurchased (physicalGame : Nat) (date : String) (source : Option String)
      (price : Option Rat) (condition : String)
  | deleteWanted (physicalGame : Nat)
deriving DecidableEq, Repr

/-- Effect of one DML statement on a database state. -/
def applyStep (s : DbState) : SqlStep → DbState
  | .insertPurchased pid date src price cond =>
      { s with
          purchasedGames :=
            s.purchasedGames ++ [⟨s.nextPurchasedId, pid, cond, date, src, price⟩]
          nextPurchasedId := s.nextPurchasedId + 1 }
  | .deleteWanted pid =>
      { s with wantedGames := s.wantedGames.filter (fun w => !(w.physicalGame == pid)) }

/-- A transaction event: a write, or the commit. -/
inductive TxEvent where
  | write (st : SqlStep)
  | commit
deriving DecidableEq, Repr

/-- Transaction semantics on a durable and pending state pair: writes go to
the pending state, a commit publishes the pending state as durable. -/
def txStep : DbState × DbState → TxEvent → DbState × DbState
  | (dur, pend), .write st => (dur, applyStep pend st)
  | (_, pend), .commit => (pend, pend)

/-- Durable state after executing a trace and stopping (an interruption
discards whatever is pending and keeps only the durable component). -/
def runTrace (s : DbState) (tr : List TxEvent) : DbState :=
  (tr.foldl txStep (s, s)).1

/-- The SELECT of the purchase route: join wanted_games with physical_games
on the route's game id and fetch the want condition; none models the 404
path. -/
def lookupWantJoin (s : DbState) (gameId : Nat) : Option String :=
  if (s.physicalGames.find? (fun p => p.id == gameId)).isSome then
    (s.wantedGames.find? (fun w => w.physicalGame == gameId)).map (fun w => w.condition)
  else none

/-- The event trace the purchase route issues: nothing when the game is not
on the wishlist, otherwise the ownership insert and the want delete followed
by one commit. -/
def purchaseTrace (s : DbState) (gameId : Nat) (date : String) (src : Option String)
    (price : Option Rat) : List TxEvent :=
  match lookupWantJoin s gameId with
  | none => []
  | some cond =>
      [.write (.insertPurchased gameId date src price cond),
       .write (.deleteWanted gameId), .commit]

/-- C3: converting an outstanding want into an ownership record is
all-or-nothing.  The completed transaction leaves zero want rows and exactly
one new ownership row for the game (the ownership table grows by exactly one
row); interrupting the transaction after any prefix of events that does not
include the commit leaves the durable database exactly as it started. -/
theorem C3_purchase_atomic (s : DbState) (gameId : Nat) (date : String)
    (src : Option String) (price : Option Rat) (cond : String)
    (h : lookupWantJoin s gameId = some cond) :
    ((runTrace s (purchaseTrace s gameId date src price)).wantedGames.countP
        (fun w => w.physicalGame == gameId) = 0) ∧
    ((runTrace s (purchaseTrace s gameId date src price)).purchasedGames.countP
        (fun p => p.physicalGame == gameId) =
      s.purchasedGames.countP (fun p => p.physicalGame == gameId) + 1) ∧
    ((runTrace s (purchaseTrace s gameId date src price)).purchasedGames.length =
      s.purchasedGames.length + 1) ∧
    (∀ k, TxEvent.commit ∉ (purchaseTrace s gameId date src price).take k →
      runTrace s ((purchaseTrace s gameId date src price).take k) = s) := by
  refine ⟨?_, ?_, ?_, ?_⟩
  · simp only [purchaseTrace, h, runTrace, List.foldl, txStep, applyStep]
    simp [List.countP_eq_zero, List.mem_filter]
  · simp only [purchaseTrace, h, runTrace, List.foldl, txStep, applyStep]
    simp [List.countP_append, List.countP_cons]
  · simp only [purchaseTrace, h, runTrace, List.foldl, txStep, applyStep]
    simp
  · intro k hk
    rw [purchaseTrace, h] at hk ⊢
    match k with
    | 0 => rfl
    | 1 => rfl
    | 2 => rfl
    | (n + 3) =>
        exact absurd (by simp [List.take]) hk

/-- C3 witness: at a concrete state with one wishlisted game, the completed
purchase leaves zero want rows and one ownership row, and every
commit-free prefix leaves the state untouched. -/
theorem C3_purchase_atomic_witness :
    ((runTrace ⟨[], [⟨1, "Zelda", "Switch"⟩], [], [⟨1, 1, "new"⟩], [], 1, 2, 1, 2, 1⟩
        (purchaseTrace ⟨[], [⟨1, "Zelda", "Switch"⟩], [], [⟨1, 1, "new"⟩], [], 1, 2, 1, 2, 1⟩
          1 "2026-10-12" none none)).wantedGames.countP
        (fun w => w.physicalGame == 1) = 0) ∧
    ((runTrace ⟨[], [⟨1, "Zelda", "Switch"⟩], [], [⟨1, 1, "new"⟩], [], 1, 2, 1, 2, 1⟩
        (purchaseTrace ⟨[], [⟨1, "Zelda", "Switch"⟩], [], [⟨1, 1, "new"⟩], [], 1, 2, 1, 2, 1⟩
          1 "2026-10-12" none none)).purchasedGames.length = 1) ∧
    (runTrace ⟨[], [⟨1, "Zelda", "Switch"⟩], [], [⟨1, 1, "new"⟩], [], 1, 2, 1, 2, 1⟩
        ((purchaseTrace ⟨[], [⟨1, "Zelda", "Switch"⟩], [], [⟨1, 1, "new"⟩], [], 1, 2, 1, 2, 1⟩
          1 "2026-10-12" none none).take 2) =
      ⟨[], [⟨1, "Zelda", "Switch"⟩], [], [⟨1, 1, "new"⟩], [], 1, 2, 1, 2, 1⟩) := by
  have h := C3_purchase_atomic
    ⟨[], [⟨1, "Zelda", "Switch"⟩], [], [⟨1, 1, "new"⟩], [], 1, 2, 1, 2, 1⟩
    1 "2026-10-12" none none "new" (by decide)
  exact ⟨h.1, h.2.2.1, h.2.2.2 2 (by decide)⟩

/-!  URL validation and identity extraction (C4, C8, C9).

Embedded from app/pricecharting_service.py.  The netloc and path helpers
model urllib.parse.urlparse for https URLs: the network location runs from
the end of the scheme marker to the first slash, question mark or hash, the
path from there to the first question mark or hash. -/

/-- Model of str.startswith. -/
def pyStartsWith (s pre : String) : Bool := pre.data.isPrefixOf s.data

/-- Model of str.endswith. -/
def pyEndsWith (s suf : String) : Bool := suf.data.isSuffixOf s.data

/-- Whether the first list occurs contiguously inside the second. -/
def containsSub (sub : List Char) : List Char → Bool
  | [] => sub.isEmpty
  | c :: rest => sub.isPrefixOf (c :: rest) || containsSub sub rest

/-- Model of the Python substring containment operator. -/
def pyContains (s sub : String) : Bool := containsSub sub.data s.data

/-- A character that terminates the network-location part of a URL. -/
def isNetlocEnd (c : Char) : Bool := c = '/' || c = '?' || c = '#'

/-- A character that starts the query or fragment part of a URL. -/
def isQueryOrFrag (c : Char) : Bool := c = '?' || c = '#'

/-- Characters of the urlparse netloc of an https URL (the eight dropped
characters are the scheme marker). -/
def netlocChars (cs : List Char) : List Char :=
  (cs.drop 8).takeWhile (fun c => !(isNetlocEnd c))

/-- Characters of the urlparse path of an https URL. -/
def pathChars (cs : List Char) : List Char :=
  ((cs.drop 8).dropWhile (fun c => !(isNetlocEnd c))).takeWhile
    (fun c => !(isQueryOrFrag c))

/-- The urlparse netloc on strings. -/
def urlNetloc (url : String) : String := ⟨netlocChars url.data⟩

/-- The urlparse path on strings. -/
def urlPath (url : String) : String := ⟨pathChars url.data⟩

/-- Accumulator loop of str.split with a one-character separator. -/
def splitAux (sep : Char) (acc : List Char) : List Char → List (List Char)
  | [] => [acc.reverse]
  | c :: rest =>
      if c = sep then acc.reverse :: splitAux sep [] rest
      else splitAux sep (c :: acc) rest

/-- Model of str.split with a one-character separator (keeps empty pieces,
exactly as Python does). -/
def splitOnChar (sep : Char) (cs : List Char) : List (List Char) :=
  splitAux sep [] cs

/-- PricechartingService.is_valid_pricecharting_url: the falsy check, the
literal-prefix check, the urlparse netloc check, and the path-structure check
over the slash-split path pieces, in source order. -/
def is_valid_pricecharting_url (url : String) : Bool :=
  if url = "" then false
  else if pyStartsWith url "https://www.pricecharting.com/game/" = false then false
  else if urlNetloc url ≠ "www.pricecharting.com" then false
  else if (splitOnChar '/' (pathChars url.data)).length < 4 ∨
          (splitOnChar '/' (pathChars url.data)).get? 1 ≠ some "game".data then false
  else true

/-- One step of the Python str.title case state machine: a letter after a
letter is lowered, a letter after a non-letter is raised. -/
def pyTitleAux : Bool → List Char → List Char
  | _, [] => []
  | prevAlpha, c :: rest =>
      if c.isAlpha then
        (if prevAlpha then c.toLower else c.toUpper) :: pyTitleAux true rest
      else c :: pyTitleAux false rest

/-- Model of str.title (ASCII letters). -/
def pyTitle (s : String) : String := ⟨pyTitleAux false s.data⟩

/-- Console extraction of extract_game_data_from_url: the third slash-split
piece of the URL path, defaulting to the unknown sentinel, then normalized via
hyphen-to-space replacement and title casing. -/
def consoleFromUrl (url : String) : String :=
  let parts := splitOnChar '/' (pathChars url.data)
  let console :=
    match parts.get? 2 with
    | some cs => String.mk cs
    | none => "unknown"
  pyTitle (console.replace "-" " ")

/-- Model of the Python slice name up to minus k characters: empty when k is
zero (the slice ends at position zero), otherwise the first length-minus-k
characters. -/
def pySliceUpToNeg (s : String) (k : Nat) : String :=
  if k = 0 then "" else ⟨s.data.take (s.data.length - k)⟩

/-- The console-stripping block at the end of extract_game_data_from_url:
exact console suffix first, then the Nintendo-prefix-stripped suffix variant,
then removal of an interior occurrence, each followed by a whitespace strip;
finally trailing spaces and punctuation are removed. -/
def finalizeName (name console : String) : String :=
  let name1 :=
    if name ≠ "" ∧ console ≠ "unknown" then
      if pyEndsWith name console then
        pyStripS (pySliceUpToNeg name console.length)
      else if pyStartsWith console "Nintendo" &&
              pyEndsWith name (console.replace "Nintendo " "") then
        pyStripS (pySliceUpToNeg name (console.replace "Nintendo " "").length)
      else if pyContains name console then
        pyStripS (name.replace console "")
      else name
    else name
  pyRstripS " -:," name1

/-- The parsed page as the extractor sees it: the selector and regex probes
it runs, each yielding a string or nothing. -/
structure Page where
  productNameTitleAttr : Option String
  productNameText : Option String
  titleText : Option String
  scriptProductId : Option String
  dataProductId : Option String
  jsonId : Option String
deriving DecidableEq, Repr

/-- Python truthiness of an optional string: None and the empty string are
falsy. -/
def pyTruthy : Option String → Bool
  | none => false
  | some s => s != ""

/-- PricechartingService.extract_id: the title attribute of the product name
element, stripped, with commas removed. -/
def extract_id (page : Page) : Option String :=
  match page.productNameTitleAttr with
  | some t => if t != "" then some ((pyStripS t).replace "," "") else none
  | none => none

/-- First truthy value of an ordered candidate list (each Python fallback is
guarded by a falsiness check of the value so far). -/
def firstTruthy : List (Option String) → Option String
  | [] => none
  | o :: rest => if pyTruthy o then o else firstTruthy rest

/-- The ordered id-extraction chain: canonical element, script regex, data
attribute, JSON regex, then the first nine characters of the URL hash
(md5hex models hashlib.md5 hexdigest, an external library function). -/
def idChain (md5hex : String → String) (page : Page) (url : String) : String :=
  match firstTruthy [extract_id page, page.scriptProductId,
                     page.dataProductId, page.jsonId] with
  | some s => s
  | none => (md5hex url).take 9

/-- The first piece of str.split on a one-character separator. -/
def splitFirst (s : String) (sep : Char) : String :=
  ⟨s.data.takeWhile (fun c => !(c == sep))⟩

/-- The name-extraction chain: stripped product-name text when truthy,
otherwise the page title split at the bar and cleansed of the Price Guide
phrase; a page with neither element leaves the name as it was (None crashes
later, an empty string survives). -/
def nameChain (page : Page) : Option String :=
  let n0 : Option String :=
    match page.productNameText with
    | some t => some (pyStripS t)
    | none => none
  if pyTruthy n0 then n0
  else
    match page.titleText with
    | some tt =>
        let n1 := if pyContains tt "|" then pyStripS (splitFirst tt '|') else pyStripS tt
        some (if pyContains n1 "Price Guide"
              then pyStripS (n1.replace "Price Guide" "") else n1)
    | none => n0

/-- Outcome of the page fetch: a parsed page, or a requests exception with
its message. -/
inductive FetchOutcome where
  | success (page : Page)
  | failure (msg : String)

/-- PricechartingService.extract_game_data_from_url.  The pair's Bool records
whether the network fetch was attempted.  An invalid URL raises ValueError
before any fetch; a fetch failure raises ValueError; a page with no name
source at all crashes on the final rstrip of None. -/
def extract_game_data_from_url (md5hex : String → String)
    (fetch : String → FetchOutcome) (url : String) :
    Except PyExn GameData × Bool :=
  if is_valid_pricecharting_url url = false then
    (.error ⟨"ValueError", "Invalid pricecharting.com URL: " ++ url⟩, false)
  else
    match fetch url with
    | .failure msg => (.error ⟨"ValueError", "Failed to fetch page: " ++ msg⟩, true)
    | .success page =>
        let pcid := idChain md5hex page url
        let console := consoleFromUrl url
        match nameChain page with
        | none => (.error ⟨"AttributeError", "NoneType object has no attribute rstrip"⟩, true)
        | some nm => (.ok ⟨finalizeName nm console, console, pcid, url⟩, true)

/-- Length of the split of a character list: one more than the number of
separator occurrences, whatever has accumulated so far. -/
theorem splitAux_length (sep : Char) (cs : List Char) :
    ∀ acc, (splitAux sep acc cs).length = cs.count sep + 1 := by
  induction cs with
  | nil => intro acc; simp [splitAux]
  | cons c rest ih =>
      intro acc
      by_cases h : c = sep <;>
        simp [splitAux, h, ih, List.count_cons]

/-- C8: extraction proceeds only on URLs of the catalog shape.  A URL the
validator accepts necessarily uses the https scheme, has network location
www.pricecharting.com, and has a path of the form /game/console/name; the
mario-kart example is accepted and the example.com URL is rejected; and on a
rejected URL the extractor raises before attempting any fetch. -/
theorem C8_url_validation :
    (∀ url : String, is_valid_pricecharting_url url = true →
      pyStartsWith url "https://" = true ∧
      urlNetloc url = "www.pricecharting.com" ∧
      ∃ console rest : String, urlPath url = "/game/" ++ console ++ "/" ++ rest) ∧
    (is_valid_pricecharting_url
        "https://www.pricecharting.com/game/nintendo-64/mario-kart-64" = true) ∧
    (is_valid_pricecharting_url "https://example.com/foo" = false) ∧
    (∀ (md5hex : String → String) (fetch : String → FetchOutcome) (url : String),
      is_valid_pricecharting_url url = false →
      (extract_game_data_from_url md5hex fetch url).2 = false) := by
  refine ⟨?_, by decide, by decide, ?_⟩
  · intro url hv
    rw [is_valid_pricecharting_url] at hv
    split_ifs at hv with h1 h2 h3 h4
    push_neg at h3 h4
    have h2' : pyStartsWith url "https://www.pricecharting.com/game/" = true := by
      cases hb : pyStartsWith url "https://www.pricecharting.com/game/" with
      | true => rfl
      | false => exact absurd hb h2
    obtain ⟨t, ht⟩ : ∃ t, url.data = "https://www.pricecharting.com/game/".data ++ t := by
      have hp := (List.isPrefixOf_iff_prefix).mp h2'
      obtain ⟨t, ht⟩ := hp
      exact ⟨t, ht.symm⟩
    refine ⟨?_, h3, ?_⟩
    · show ("https://".data).isPrefixOf url.data = true
      rw [List.isPrefixOf_iff_prefix]
      refine ⟨"www.pricecharting.com/game/".data ++ t, ?_⟩
      rw [← List.append_assoc]
      rw [show "https://".data ++ "www.pricecharting.com/game/".data =
            "https://www.pricecharting.com/game/".data from rfl]
      exact ht.symm
    · have hpathchars : pathChars url.data =
          '/' :: 'g' :: 'a' :: 'm' :: 'e' :: '/' ::
            (t.takeWhile (fun c => !(isQueryOrFrag c))) := by
        rw [ht]; rfl
      have hsplit : splitOnChar '/' (pathChars url.data) =
          [] :: "game".data ::
            splitAux '/' [] (t.takeWhile (fun c => !(isQueryOrFrag c))) := by
        rw [show splitOnChar '/' (pathChars url.data) =
              splitAux '/' [] (pathChars url.data) from rfl, hpathchars]
        rfl
      have hlen : 4 ≤ (splitOnChar '/' (pathChars url.data)).length := h4.1
      rw [hsplit] at hlen
      simp only [List.length_cons] at hlen
      rw [splitAux_length] at hlen
      have hmem : '/' ∈ t.takeWhile (fun c => !(isQueryOrFrag c)) := by
        rw [← List.count_pos_iff]
        omega
      obtain ⟨s1, t1, hQ⟩ := List.append_of_mem hmem
      refine ⟨⟨s1⟩, ⟨t1⟩, String.ext ?_⟩
      simp only [String.data_append]
      rw [show (urlPath url).data = pathChars url.data from rfl, hpathchars, hQ]
      simp [List.append_assoc]
  · intro md5hex fetch url h
    simp [extract_game_data_from_url, h]

/-- C8 witness: the accepted example satisfies the shape facts and the
rejected example performs no fetch, by direct application of the validation
theorem at those URLs. -/
theorem C8_url_validation_witness :
    (pyStartsWith "https://www.pricecharting.com/game/nintendo-64/mario-kart-64"
        "https://" = true ∧
     urlNetloc "https://www.pricecharting.com/game/nintendo-64/mario-kart-64" =
        "www.pricecharting.com" ∧
     ∃ console rest : String,
        urlPath "https://www.pricecharting.com/game/nintendo-64/mario-kart-64" =
          "/game/" ++ console ++ "/" ++ rest) ∧
    (extract_game_data_from_url (fun _ => "") (fun _ => .failure "timeout")
        "https://example.com/foo").2 = false := by
  exact ⟨C8_url_validation.1
          "https://www.pricecharting.com/game/nintendo-64/mario-kart-64" (by decide),
         C8_url_validation.2.2.2 (fun _ => "") (fun _ => .failure "timeout")
          "https://example.com/foo" (by decide)⟩

/-- C4 counterexample: the malformed-URL failure and the fetch failure both
raise the same Python exception type (ValueError); at the two concrete inputs
below the raised errors have equal etype fields, so the error type alone
cannot tell a malformed URL from an upstream fetch failure. -/
theorem C4_counterexample :
    (extract_game_data_from_url (fun _ => "") (fun _ => .failure "timeout")
        "https://example.com/foo").1 =
      .error ⟨"ValueError", "Invalid pricecharting.com URL: https://example.com/foo"⟩ ∧
    (extract_game_data_from_url (fun _ => "") (fun _ => .failure "timeout")
        "https://www.pricecharting.com/game/nintendo-64/mario-kart-64").1 =
      .error ⟨"ValueError", "Failed to fetch page: timeout"⟩ ∧
    (PyExn.etype ⟨"ValueError", "Invalid pricecharting.com URL: https://example.com/foo"⟩ =
     PyExn.etype ⟨"ValueError", "Failed to fetch page: timeout"⟩) :=
  ⟨rfl, rfl, rfl⟩

/-- C4 amended: a structurally invalid URL fails before any fetch with a
ValueError whose message starts with the invalid-URL phrase, and a fetch
failure on a valid URL fails with a ValueError whose message starts with the
failed-fetch phrase; the two failure modes share one exception type and are
distinguishable only by these disjoint message prefixes. -/
theorem C4_amended (md5hex : String → String) (fetch : String → FetchOutcome)
    (url : String) :
    (is_valid_pricecharting_url url = false →
      extract_game_data_from_url md5hex fetch url =
        (.error ⟨"ValueError", "Invalid pricecharting.com URL: " ++ url⟩, false)) ∧
    (∀ msg, is_valid_pricecharting_url url = true → fetch url = .failure msg →
      extract_game_data_from_url md5hex fetch url =
        (.error ⟨"ValueError", "Failed to fetch page: " ++ msg⟩, true)) ∧
    (∀ u m : String,
      "Invalid pricecharting.com URL: " ++ u ≠ "Failed to fetch page: " ++ m) := by
  refine ⟨?_, ?_, ?_⟩
  · intro h
    simp [extract_game_data_from_url, h]
  · intro msg hv hf
    simp [extract_game_data_from_url, hv, hf]
  · intro u m h
    have h1 : ("Invalid pricecharting.com URL: ").data ++ u.data =
        ("Failed to fetch page: ").data ++ m.data := by
      have h0 := congrArg String.data h
      rw [String.data_append, String.data_append] at h0
      exact h0
    have h2 := congrArg List.head? h1
    rw [show (("Invalid pricecharting.com URL: ").data ++ u.data).head? =
          some 'I' from rfl,
        show (("Failed to fetch page: ").data ++ m.data).head? =
          some 'F' from rfl] at h2
    exact absurd h2 (by decide)

/-- C4 amended witness: the two failure modes observed at concrete inputs,
with the distinguishing message prefixes. -/
theorem C4_amended_witness :
    extract_game_data_from_url (fun _ => "") (fun _ => .failure "refused")
        "notaurl" =
      (.error ⟨"ValueError", "Invalid pricecharting.com URL: notaurl"⟩, false) ∧
    extract_game_data_from_url (fun _ => "") (fun _ => .failure "refused")
        "https://www.pricecharting.com/game/switch/zelda" =
      (.error ⟨"ValueError", "Failed to fetch page: refused"⟩, true) ∧
    ("Invalid pricecharting.com URL: x" : String) ≠ "Failed to fetch page: y" :=
  ⟨(C4_amended (fun _ => "") (fun _ => .failure "refused") "notaurl").1 (by decide),
   (C4_amended (fun _ => "") (fun _ => .failure "refused")
      "https://www.pricecharting.com/game/switch/zelda").2.1 "refused" (by decide) rfl,
   (C4_amended (fun _ => "") (fun _ => .failure "refused") "notaurl").2.2 "x" "y"⟩

/-!  C7 — barcode validation (app/routes.py search_by_barcode). -/

/-- Whitespace characters are not digits. -/
theorem ws_not_digit : ∀ c : Char, pyWsChars.contains c = true → c.isDigit = false := by
  intro c hc
  simp [pyWsChars, List.contains_iff_exists_mem_beq] at hc
  rcases hc with h | h | h | h | h | h <;> subst h <;> rfl

/-- Filtering is unaffected by first dropping a prefix of elements the filter
would discard anyway. -/
theorem filter_dropWhile_of (p q : Char → Bool) (h : ∀ c, q c = true → p c = false) :
    ∀ l : List Char, (l.dropWhile q).filter p = l.filter p := by
  intro l
  induction l with
  | nil => rfl
  | cons c t ih =>
      by_cases hq : q c = true
      · simp [List.dropWhile_cons, hq, List.filter_cons, h c hq, ih]
      · simp [List.dropWhile_cons, hq, List.filter_cons]

/-- Stripping surrounding whitespace does not change the digits of a string. -/
theorem filter_digit_pyStrip (cs : List Char) :
    (pyStrip cs).filter Char.isDigit = cs.filter Char.isDigit := by
  unfold pyStrip rstripChars lstripChars
  rw [List.filter_reverse,
      filter_dropWhile_of _ _ (fun c hc => ws_not_digit c hc),
      List.filter_reverse, List.reverse_reverse,
      filter_dropWhile_of _ _ (fun c hc => ws_not_digit c hc)]

/-- Outcome of the barcode route up to its network call: a client error
answered with status 400 before any request, or the catalog search request
carrying the cleaned code. -/
inductive BarcodeOutcome where
  | clientError (msg : String)
  | search (cleaned : String)
deriving DecidableEq, Repr

/-- The validation prefix of search_by_barcode: strip the input, answer the
required-field error on an empty barcode, keep only digit characters, and
answer the format error unless the cleaned length is 8, 12 or 13. -/
def search_by_barcode_validate (input : String) : BarcodeOutcome :=
  let barcode := pyStripS input
  if barcode = "" then .clientError "Barcode is required"
  else
    let cleaned : String := ⟨barcode.data.filter Char.isDigit⟩
    if ¬(cleaned.length = 8 ∨ cleaned.length = 12 ∨ cleaned.length = 13) then
      .clientError "Invalid barcode format. Must be 8, 12, or 13 digits."
    else .search cleaned

/-- The barcode route with its network flag: requests.get is issued exactly
when validation hands over a search outcome. -/
def search_by_barcode (input : String) : BarcodeOutcome × Bool :=
  match search_by_barcode_validate input with
  | .clientError m => (.clientError m, false)
  | .search cleaned => (.search cleaned, true)

/-- Whether the route accepts the barcode. -/
def barcodeAccepted (input : String) : Bool :=
  match search_by_barcode_validate input with
  | .search _ => true
  | .clientError _ => false

/-- C7: a barcode is accepted exactly when its digit characters number 8, 12
or 13; every rejected barcode is answered with a validation error and no
network request; the example twelve-digit code passes and the code 123 is
rejected. -/
theorem C7_barcode_validation :
    (∀ b : String, barcodeAccepted b = true ↔
      ((b.data.filter Char.isDigit).length = 8 ∨
       (b.data.filter Char.isDigit).length = 12 ∨
       (b.data.filter Char.isDigit).length = 13)) ∧
    (∀ b : String, barcodeAccepted b = false →
      ∃ msg, search_by_barcode b = (.clientError msg, false)) ∧
    barcodeAccepted "012345678905" = true ∧
    barcodeAccepted "123" = false := by
  refine ⟨?_, ?_, by decide, by decide⟩
  · intro b
    have hclean : (pyStripS b).data.filter Char.isDigit = b.data.filter Char.isDigit :=
      filter_digit_pyStrip b.data
    by_cases h0 : pyStripS b = ""
    · have hempty : b.data.filter Char.isDigit = [] := by
        rw [← hclean, h0]
        rfl
      simp [barcodeAccepted, search_by_barcode_validate, h0, hempty]
    · simp only [barcodeAccepted, search_by_barcode_validate, h0, if_false]
      rw [show (⟨(pyStripS b).data.filter Char.isDigit⟩ : String).length =
            ((pyStripS b).data.filter Char.isDigit).length from rfl, hclean]
      split_ifs with h <;> simp [h]
  · intro b hb
    cases h : search_by_barcode_validate b with
    | clientError m => exact ⟨m, by simp [search_by_barcode, h]⟩
    | search cleaned =>
        rw [show barcodeAccepted b =
              (match search_by_barcode_validate b with
               | .search _ => true
               | .clientError _ => false) from rfl, h] at hb
        simp at hb

/-- C7 witness: the twelve-digit example is accepted by the length rule, and
the code 123 is rejected with a validation error and no network request. -/
theorem C7_barcode_validation_witness :
    (("012345678905".data.filter Char.isDigit).length = 8 ∨
     ("012345678905".data.filter Char.isDigit).length = 12 ∨
     ("012345678905".data.filter Char.isDigit).length = 13) ∧
    (∃ msg, search_by_barcode "123" = (.clientError msg, false)) :=
  ⟨(C7_barcode_validation.1 "012345678905").mp (by decide),
   C7_barcode_validation.2.1 "123" (by decide)⟩

/-!  C9 — platform-name suffix stripping. -/

/-- Stated from the claim wording, for comparison with the code: the
remainder of the name with the platform suffix removed. -/
def removePlatformSuffix (name console : String) : String :=
  ⟨name.data.take (name.data.length - console.data.length)⟩

/-- Stated from the claim wording, for comparison with the code: trailing
spaces and punctuation (the hyphen, colon and comma the code trims)
removed. -/
def trimTrailingSpacePunct (s : String) : String :=
  ⟨rstripChars [' ', '-', ':', ','] s.data⟩

/-- Dropping a leading run of elements the outer predicate would also drop
does not change the outer dropWhile. -/
theorem dropWhile_dropWhile_of {α : Type} (pA pB : α → Bool) (l : List α)
    (h : ∀ c ∈ l, pB c = true → pA c = true) :
    (l.dropWhile pB).dropWhile pA = l.dropWhile pA := by
  induction l with
  | nil => rfl
  | cons c t ih =>
      by_cases hq : pB c = true
      · rw [List.dropWhile_cons, if_pos hq,
            ih (fun x hx hb => h x (List.mem_cons_of_mem c hx) hb)]
        rw [List.dropWhile_cons, if_pos (h c (List.mem_cons_self c t) hq)]
      · rw [List.dropWhile_cons, if_neg hq]

/-- A list whose whitespace is only blanks and whose head is not a blank is
unchanged by the leading whitespace strip. -/
theorem lstrip_eq_self_of (cs : List Char)
    (hws : ∀ c ∈ cs, pyWsChars.contains c = true → c = ' ')
    (hhead : cs.head? ≠ some ' ') :
    lstripChars pyWsChars cs = cs := by
  cases cs with
  | nil => rfl
  | cons c t =>
      have hc : pyWsChars.contains c = false := by
        cases h : pyWsChars.contains c with
        | false => rfl
        | true =>
            have := hws c (List.mem_cons_self c t) h
            subst this
            simp at hhead
      unfold lstripChars
      rw [List.dropWhile_cons,
          if_neg (by show ¬(pyWsChars.contains c = true); rw [hc]; exact Bool.false_ne_true)]

/-- A take of a list whose head is not the given character also does not
start with that character. -/
theorem head?_take_ne (l : List Char) (m : Nat) (c : Char)
    (h : l.head? ≠ some c) : (l.take m).head? ≠ some c := by
  cases l with
  | nil => simp
  | cons a t =>
      cases m with
      | zero => simp
      | succ m => simpa using h

/-- C9: for an extracted name ending in the (nonempty, known) platform name,
with the name using only blank whitespace and not starting with a blank —
which is how extraction produces names — the stored name is exactly the
remainder after removing the platform suffix with trailing spaces and
punctuation trimmed. -/
theorem C9_platform_suffix_stripped (name console : String)
    (hws : ∀ c ∈ name.data, pyWsChars.contains c = true → c = ' ')
    (hhead : name.data.head? ≠ some ' ')
    (hcne : console ≠ "")
    (hcun : console ≠ "unknown")
    (hsuf : pyEndsWith name console = true) :
    finalizeName name console =
      trimTrailingSpacePunct (removePlatformSuffix name console) := by
  have hcd : console.data ≠ [] := fun h => hcne (String.ext h)
  have hnd : name.data ≠ [] := by
    intro h
    have hs := (List.isSuffixOf_iff_suffix).mp hsuf
    obtain ⟨t, ht⟩ := hs
    rw [h] at ht
    exact hcd (List.append_eq_nil.mp ht).2
  have hne : name ≠ "" := fun h => hnd (congrArg String.data h)
  have hk : console.length ≠ 0 := by
    intro h
    exact hcd (List.length_eq_zero.mp h)
  have hr : pySliceUpToNeg name console.length = removePlatformSuffix name console := by
    unfold pySliceUpToNeg removePlatformSuffix
    rw [if_neg hk]
    rfl
  have hwsr : ∀ c ∈ (removePlatformSuffix name console).data,
      pyWsChars.contains c = true → c = ' ' := by
    intro c hcmem hctr
    exact hws c (List.mem_of_mem_take hcmem) hctr
  have hheadr : (removePlatformSuffix name console).data.head? ≠ some ' ' :=
    head?_take_ne _ _ _ hhead
  unfold finalizeName
  rw [if_pos ⟨hne, hcun⟩, if_pos hsuf, hr]
  unfold pyStripS pyStrip pyRstripS trimTrailingSpacePunct
  rw [lstrip_eq_self_of _ hwsr hheadr]
  show String.mk (rstripChars " -:,".data
      (rstripChars pyWsChars (removePlatformSuffix name console).data)) = _
  unfold rstripChars
  rw [List.reverse_reverse]
  rw [dropWhile_dropWhile_of _ _ _ (fun c hc hb => by
    have : c = ' ' := hwsr c (List.mem_reverse.mp hc) hb
    subst this
    rfl)]

/-- C9 witness: the mario-kart example strips to Mario Kart 64 with no
residual platform tokens, via the stripping theorem at that concrete pair. -/
theorem C9_platform_suffix_stripped_witness :
    finalizeName "Mario Kart 64 Nintendo 64" "Nintendo 64" =
      trimTrailingSpacePunct
        (removePlatformSuffix "Mario Kart 64 Nintendo 64" "Nintendo 64") ∧
    trimTrailingSpacePunct
        (removePlatformSuffix "Mario Kart 64 Nintendo 64" "Nintendo 64") =
      "Mario Kart 64" :=
  ⟨C9_platform_suffix_stripped "Mario Kart 64 Nintendo 64" "Nintendo 64"
      (by decide) (by decide) (by decide) (by decide) (by decide),
   by decide⟩

/-!  C10 — the daily batch loop (daily_price_update.py main, lines 244..262
and 276..279).

Each iteration calls update_game_price, which catches every per-item
exception and reports a boolean, so the loop itself never stops early; the
outcome argument models that per-item boolean.  After the loop, main exits
with status 1 exactly when the failure tally exceeds the success tally, and
otherwise falls through to the normal exit 0. -/

/-- Tally of the batch loop: items attempted in order, successes and
failures. -/
structure BatchTally (α : Type) where
  attempted : List α
  successful : Nat
  failed : Nat

/-- The per-game loop of main over the selected games. -/
def processGames {α : Type} (outcome : α → Bool) (games : List α) : BatchTally α :=
  games.foldl
    (fun acc g =>
      { attempted := acc.attempted ++ [g]
        successful := acc.successful + (if outcome g then 1 else 0)
        failed := acc.failed + (if outcome g then 0 else 1) })
    ⟨[], 0, 0⟩

/-- The exit status of main for a selection that reached the loop: 1 when
failures exceed successes, otherwise 0. -/
def batchExitCode {α : Type} (outcome : α → Bool) (games : List α) : Nat :=
  let t := processGames outcome games
  if t.failed > t.successful then 1 else 0

/-- Unrolling of the batch fold from any starting tally. -/
theorem batch_foldl_spec {α : Type} (outcome : α → Bool) :
    ∀ (games : List α) (acc : BatchTally α),
      games.foldl
        (fun acc g =>
          { attempted := acc.attempted ++ [g]
            successful := acc.successful + (if outcome g then 1 else 0)
            failed := acc.failed + (if outcome g then 0 else 1) }) acc =
        { attempted := acc.attempted ++ games
          successful := acc.successful + games.countP outcome
          failed := acc.failed + games.countP (fun g => !(outcome g)) } := by
  intro games
  induction games with
  | nil => intro acc; simp
  | cons g rest ih =>
      intro acc
      rw [List.foldl_cons, ih]
      by_cases h : outcome g = true <;>
        simp [h, List.countP_cons, List.append_assoc] <;> omega

/-- C10: the batch loop attempts every selected game regardless of per-item
outcomes (one failure never aborts the loop), the tallies count exactly the
failed and successful items, and the process exit status is nonzero exactly
when the failures outnumber the successes. -/
theorem C10_batch_loop {α : Type} (outcome : α → Bool) (games : List α) :
    (processGames outcome games).attempted = games ∧
    (processGames outcome games).successful = games.countP outcome ∧
    (processGames outcome games).failed = games.countP (fun g => !(outcome g)) ∧
    (batchExitCode outcome games ≠ 0 ↔
      games.countP outcome < games.countP (fun g => !(outcome g))) := by
  have h := batch_foldl_spec outcome games ⟨[], 0, 0⟩
  unfold processGames batchExitCode
  rw [show processGames outcome games =
        games.foldl
          (fun acc g =>
            { attempted := acc.attempted ++ [g]
              successful := acc.successful + (if outcome g then 1 else 0)
              failed := acc.failed + (if outcome g then 0 else 1) }) ⟨[], 0, 0⟩ from rfl]
  rw [h]
  refine ⟨by simp, by simp, by simp, ?_⟩
  by_cases hgt : games.countP (fun g => !(outcome g)) > games.countP outcome <;>
    simp [hgt]
